import Mathlib

/-!
Verification development for the clickstream ETL benchmark data generator
(`src/data_generation/generator.py`).

Shallow embedding conventions:
* `datetime` values are modelled as integer seconds; `datetime(2024, 1, 1)`
  (the bulk start constant of the orchestrator) is second `0` of the model,
  so `datetime(2024, 2, 1)` is second `31 * 86400`.
* The process randomness is split into the three independent sources the
  source code actually draws from:
  - `Streams.uuid` — the OS entropy behind `uuid.uuid4()` (never seeded);
  - `Streams.prng` — the `random` module stream (re-seeded by `random.seed`);
  - `Streams.faker` — the Faker stream (re-seeded by `Faker.seed`).
  Each source is a pure stream `Nat → _` read at an explicit position that
  is threaded through every draw, mirroring the strictly sequential
  consumption order of the Python code.
* `random.seed(s)` / `Faker.seed(s)` replace the corresponding stream by a
  deterministic function of `s`; the algorithms behind them are abstracted
  as parameters `prngAlgo fakerAlgo : Nat → Nat → Nat` shared by any two
  runs of the same interpreter (they are fixed library code).
* Filesystem activity is recorded as an explicit `Effect` trace; file sizes
  read back by `Path.stat()` are an oracle `stat : String → Nat` (bytes).
-/

/-- Underlying random sources of one Python process, as pure streams:
`uuid` backs `uuid.uuid4()` (OS entropy, not affected by seeding), `prng`
backs the `random` module, `faker` backs the Faker instance. -/
structure Streams where
  uuid : Nat → String
  prng : Nat → Nat
  faker : Nat → Nat

/-- Read positions into the three streams; every draw advances exactly one
of them by one, in the order the Python code performs the draws. -/
structure Pos where
  u : Nat
  p : Nat
  f : Nat
deriving DecidableEq, Repr

/-- Model of `random.randint(lo, hi)` (both bounds inclusive): one draw from the
`random` stream, reduced into the interval `[lo, hi]`. -/
def randint (S : Streams) (lo hi : Nat) (pos : Pos) : Nat × Pos :=
  (lo + S.prng pos.p % (hi + 1 - lo), { pos with p := pos.p + 1 })

/-- Model of `random.choice(seq)`: one draw from the `random` stream used as an
index into the sequence. -/
def choice (S : Streams) (l : List String) (pos : Pos) : String × Pos :=
  (l.getD (S.prng pos.p % l.length) "", { pos with p := pos.p + 1 })

/-- Model of `str(uuid.uuid4())`: one draw from the OS entropy stream. -/
def uuid4 (S : Streams) (pos : Pos) : String × Pos :=
  (S.uuid pos.u, { pos with u := pos.u + 1 })

/-- Dotted-quad rendering of one 32-bit draw. Faker is an external
black box used only as a synthetic IPv4 string source (spec §1), so its
internals are abstracted to a fixed rendering of a stream draw. -/
def ipv4Render (n : Nat) : String :=
  toString (n / 16777216 % 256) ++ "." ++ toString (n / 65536 % 256) ++ "." ++
    toString (n / 256 % 256) ++ "." ++ toString (n % 256)

/-- Model of `self.faker.ipv4()`: one draw from the Faker stream. -/
def fakerIpv4 (S : Streams) (pos : Pos) : String × Pos :=
  (ipv4Render (S.faker pos.f), { pos with f := pos.f + 1 })

/-- The `DataSize` enum of generator.py. -/
inductive DataSize where
  | small
  | medium
  | large
deriving DecidableEq, Repr

/-- The `value` attribute of each `DataSize` member. -/
def DataSize.value : DataSize → String
  | .small => "small"
  | .medium => "medium"
  | .large => "large"

/-- The member list of the enum, in declaration order (`[s for s in DataSize]`). -/
def DataSize.all : List DataSize := [.small, .medium, .large]

/-- Model of `DataSize(size)`: value lookup, `none` models the `ValueError`. -/
def DataSize.ofString (s : String) : Option DataSize :=
  if s = "small" then some .small
  else if s = "medium" then some .medium
  else if s = "large" then some .large
  else none

/-- The `ClickstreamDataGenerator.SIZE_RECORD_COUNTS` mapping. -/
def SIZE_RECORD_COUNTS : DataSize → Nat
  | .small => 100000
  | .medium => 10000000
  | .large => 100000000

/-- The `ClickstreamDataGenerator.PAGES` constant. -/
def PAGES : List String :=
  ["/", "/home", "/products", "/about", "/contact", "/login", "/search",
   "/cart", "/checkout"]

/-- The `ClickstreamDataGenerator.COUNTRIES` constant. -/
def COUNTRIES : List String :=
  ["US", "CA", "GB", "DE", "FR", "IT", "ES", "AU", "JP"]

/-- The `ClickstreamDataGenerator.DEVICES` constant. -/
def DEVICES : List String := ["desktop", "mobile", "tablet"]

/-- One clickstream record: the dict built by `_generate_event` has exactly
these eight keys, every one assigned on construction (no optional field,
hence no null can ever be produced). -/
structure Event where
  event_id : String
  user_id : String
  session_id : String
  timestamp : Int
  page_url : String
  country : String
  device : String
  ip_address : String
deriving DecidableEq, Repr

/-- Configuration part of a `ClickstreamDataGenerator` instance: its tier
and the record count looked up from `SIZE_RECORD_COUNTS` in `__init__`. -/
structure ClickstreamDataGenerator where
  size : DataSize
  record_count : Nat
deriving DecidableEq, Repr

/-- Model of `ClickstreamDataGenerator.__init__`: stores the size and record count;
if a seed is given, `Faker.seed(seed)` and `random.seed(seed)` replace the
`faker` and `prng` streams by deterministic functions of the seed. The
`uuid` stream (OS entropy behind `uuid.uuid4`) is untouched either way. -/
def ClickstreamDataGenerator.init (prngAlgo fakerAlgo : Nat → Nat → Nat)
    (ambient : Streams) (size : DataSize) (seed : Option Nat) :
    ClickstreamDataGenerator × Streams :=
  ({ size := size, record_count := SIZE_RECORD_COUNTS size },
    match seed with
    | some s => { ambient with prng := prngAlgo s, faker := fakerAlgo s }
    | none => ambient)

/-- Model of `ClickstreamDataGenerator._generate_event(timestamp)`: the dict values
are evaluated left to right, so the draw order is three uuids, then the
three categorical choices, then the Faker IP. -/
def generate_event (S : Streams) (timestamp : Int) (pos : Pos) : Event × Pos :=
  let (eid, pos1) := uuid4 S pos
  let (uid, pos2) := uuid4 S pos1
  let (sid, pos3) := uuid4 S pos2
  let (pg, pos4) := choice S PAGES pos3
  let (co, pos5) := choice S COUNTRIES pos4
  let (dv, pos6) := choice S DEVICES pos5
  let (ip, pos7) := fakerIpv4 S pos6
  ({ event_id := eid, user_id := uid, session_id := sid,
     timestamp := timestamp, page_url := pg, country := co, device := dv,
     ip_address := ip }, pos7)

/-- The shared shape of the two generation loops (`generate_bulk_data` and
`generate_incremental_data` differ only in base instant and offset span):
each iteration draws `randint(0, span)` seconds and appends
`_generate_event(base + offset)`. -/
def eventLoop (S : Streams) (base : Int) (span : Nat) :
    Nat → Pos → List Event × Pos
  | 0, pos => ([], pos)
  | n + 1, pos =>
    let (r, pos1) := randint S 0 span pos
    let (e, pos2) := generate_event S (base + r) pos1
    let (rest, pos3) := eventLoop S base span n pos2
    (e :: rest, pos3)

/-- Model of `ClickstreamDataGenerator.generate_bulk_data(start_date, days=30)`:
`record_count` events, each at `start_date` plus a uniform offset in
`[0, days * 86400]` seconds (`int((end_date - start_date).total_seconds())
= days * 86400`). -/
def ClickstreamDataGenerator.generate_bulk_data
    (g : ClickstreamDataGenerator) (S : Streams) (start_date : Int)
    (days : Nat) (pos : Pos) : List Event × Pos :=
  eventLoop S start_date (days * 86400) g.record_count pos

/-- Model of `ClickstreamDataGenerator.generate_incremental_data(date,
records_per_day=1000)`: `date.replace(hour=0, minute=0, second=0,
microsecond=0)` is the floor of `date` to a multiple of 86400 seconds;
each event gets a uniform offset in `[0, 86400]` from that midnight. -/
def ClickstreamDataGenerator.generate_incremental_data
    (_g : ClickstreamDataGenerator) (S : Streams) (date : Int)
    (records_per_day : Nat) (pos : Pos) : List Event × Pos :=
  eventLoop S (date - date % 86400) 86400 records_per_day pos

/-- Gregorian leap-year test. -/
def isLeap (y : Nat) : Bool :=
  (y % 4 == 0 && y % 100 != 0) || y % 400 == 0

/-- Days in a Gregorian year. -/
def daysInYear (y : Nat) : Nat := if isLeap y then 366 else 365

/-- Month lengths of a year. -/
def monthLengths (leap : Bool) : List Nat :=
  [31, if leap then 29 else 28, 31, 30, 31, 30, 31, 31, 30, 31, 30, 31]

/-- Resolve a day count (days since Jan 1 of year `y`) to a year and a
day-of-year index; structurally recursive on a fuel bound (each step
removes at least 365 days, so `days` itself is ample fuel). -/
def resolveYearAux : Nat → Nat → Nat → Nat × Nat
  | 0, y, days => (y, days)
  | fuel + 1, y, days =>
    if days < daysInYear y then (y, days)
    else resolveYearAux fuel (y + 1) (days - daysInYear y)

/-- Resolve a day count (days since Jan 1 of year `y`) to a year and a
day-of-year index. -/
def resolveYear (y days : Nat) : Nat × Nat := resolveYearAux days y days

/-- Resolve a day-of-year index to a month number and day-of-month index,
walking the month-length table from month `m`. -/
def resolveMonth (ml : List Nat) (m days : Nat) : Nat × Nat :=
  match ml with
  | [] => (m, days)
  | len :: rest => if days < len then (m, days) else resolveMonth rest (m + 1) (days - len)

/-- Left-pad a number to two digits. -/
def pad2 (n : Nat) : String :=
  if n < 10 then "0" ++ toString n else toString n

/-- Model of `datetime.strftime("%Y-%m-%d")` for a model instant (seconds since
2024-01-01 00:00, the epoch of this embedding); only instants at or after
the epoch occur in the orchestrator. -/
def strftimeYmd (t : Int) : String :=
  let d := (t / 86400).toNat
  let yd := resolveYear 2024 d
  let md := resolveMonth (monthLengths (isLeap yd.1)) 1 yd.2
  toString yd.1 ++ "-" ++ pad2 md.1 ++ "-" ++ pad2 (md.2 + 1)

/-- Structured content of the `ValueError`s raised by
`generate_benchmark_data`: each carries exactly the sets its message
interpolates (the allowed tier values, or the offending and supported
formats). -/
inductive GenError where
  | invalidSize (allowed : List String)
  | unsupportedFormats (invalid : List String) (supported : List String)
deriving DecidableEq, Repr

/-- One observable filesystem action of the orchestrator, recorded at the
call site that performs it: the two `mkdir(parents=True, exist_ok=True)`
calls, the bulk `write_csv`/`write_parquet` call, and the per-day
incremental `write_csv`/`write_parquet` call (the `format` field records
which branch wrote the file, the `rows` field the table handed to the
writer). -/
inductive Effect where
  | mkdir (path : String)
  | writeBulk (path : String) (format : String) (rows : List Event)
  | writeIncremental (path : String) (format : String) (rows : List Event)
deriving DecidableEq, Repr

/-- Bulk file metadata recorded in `format_results["bulk"]`. -/
structure FileMeta where
  path : String
  records : Nat
  size_mb : Rat
deriving DecidableEq, Repr

/-- One entry of `format_results["incremental"]`. -/
structure IncrMeta where
  date : String
  path : String
  records : Nat
  size_mb : Rat
deriving DecidableEq, Repr

/-- The per-format value stored under `results["files"][format_type]`. -/
structure FormatResults where
  bulk : FileMeta
  incremental : List IncrMeta
deriving DecidableEq, Repr

/-- The returned `results` dict. `files` keeps Python dict semantics:
insertion order, one entry per key. -/
structure Manifest where
  size : String
  bulk_record_count : Nat
  incremental_days : Int
  files : List (String × FormatResults)
deriving DecidableEq, Repr

/-- Python dict assignment `d[k] = v`: replaces the value in place when the
key exists, appends otherwise. -/
def dictInsert (l : List (String × FormatResults)) (k : String)
    (v : FormatResults) : List (String × FormatResults) :=
  match l with
  | [] => [(k, v)]
  | (k0, v0) :: rest =>
    if k0 = k then (k, v) :: rest else (k0, v0) :: dictInsert rest k v

/-- Model of `st_size / (1024 * 1024)`: the byte count reported by the `stat`
oracle, rescaled to megabytes (exact rational; the Python float division
by the power of two is exact for any realistic file size). -/
def sizeMb (stat : String → Nat) (path : String) : Rat :=
  (stat path : Rat) / (1024 * 1024)

/-- Inner loop of `generate_benchmark_data`: `for day in
range(incremental_days)` for one format. `day` is the current index,
`remaining` the number of iterations left. Each iteration formats the
date, draws a fresh incremental batch (default 1000 records), writes it
and records its metadata. -/
def dayLoop (S : Streams) (g : ClickstreamDataGenerator)
    (stat : String → Nat) (incremental_dir size format_type : String)
    (incremental_start_date : Int) :
    Nat → Nat → Pos → List IncrMeta × List Effect × Pos
  | _day, 0, pos => ([], [], pos)
  | day, remaining + 1, pos =>
    let current_date := incremental_start_date + (day : Int) * 86400
    let date_str := strftimeYmd current_date
    let de := g.generate_incremental_data S current_date 1000 pos
    let incremental_filename :=
      "incremental_" ++ date_str ++ "_" ++ size ++ "." ++ format_type
    let incremental_file_path := incremental_dir ++ "/" ++ incremental_filename
    let meta : IncrMeta :=
      { date := date_str, path := incremental_file_path,
        records := de.1.length, size_mb := sizeMb stat incremental_file_path }
    let rest := dayLoop S g stat incremental_dir size format_type
      incremental_start_date (day + 1) remaining de.2
    (meta :: rest.1,
      Effect.writeIncremental incremental_file_path format_type de.1 :: rest.2.1,
      rest.2.2)

/-- Outer loop of `generate_benchmark_data`: `for format_type in formats`.
Each iteration writes the (shared) bulk batch, records its metadata, runs
the day loop, and assigns `results["files"][format_type]`. -/
def formatLoop (S : Streams) (g : ClickstreamDataGenerator)
    (stat : String → Nat) (bulk_dir incremental_dir size : String)
    (bulk_events : List Event) (incremental_start_date : Int)
    (incremental_days : Int) :
    List String → List (String × FormatResults) → Pos →
    List (String × FormatResults) × List Effect × Pos
  | [], files, pos => (files, [], pos)
  | format_type :: rest, files, pos =>
    let bulk_filename := "bulk_data_" ++ size ++ "." ++ format_type
    let bulk_file_path := bulk_dir ++ "/" ++ bulk_filename
    let bulkMeta : FileMeta :=
      { path := bulk_file_path, records := bulk_events.length,
        size_mb := sizeMb stat bulk_file_path }
    let dl := dayLoop S g stat incremental_dir size format_type
      incremental_start_date 0 incremental_days.toNat pos
    let format_results : FormatResults := { bulk := bulkMeta, incremental := dl.1 }
    let fl := formatLoop S g stat bulk_dir incremental_dir size bulk_events
      incremental_start_date incremental_days rest
      (dictInsert files format_type format_results) dl.2.2
    (fl.1, Effect.writeBulk bulk_file_path format_type bulk_events :: dl.2.1 ++ fl.2.1,
      fl.2.2)

/-- Model of `generate_benchmark_data(size, output_dir, formats=None, seed=None,
incremental_days=7)`. Besides the Python arguments it takes the ambient
random sources of the process, the (fixed) seeding algorithms of the
`random` module and Faker, and the `stat` size oracle; it returns the
result-or-error together with the filesystem effect trace. Validation of
`size` and `formats` happens before any directory creation or write, so
the trace is empty on either error. -/
def generate_benchmark_data (prngAlgo fakerAlgo : Nat → Nat → Nat)
    (ambient : Streams) (stat : String → Nat) (size output_dir : String)
    (formatsArg : Option (List String)) (seed : Option Nat)
    (incremental_days : Int) : Except GenError Manifest × List Effect :=
  let formats := formatsArg.getD ["csv", "parquet"]
  match DataSize.ofString size with
  | none => (.error (.invalidSize (DataSize.all.map DataSize.value)), [])
  | some data_size =>
    let supported_formats := ["csv", "parquet"]
    let invalid_formats := (formats.filter (fun f => !supported_formats.contains f)).dedup
    if invalid_formats ≠ [] then
      (.error (.unsupportedFormats invalid_formats supported_formats), [])
    else
      let bulk_dir := output_dir ++ "/bulk"
      let incremental_dir := output_dir ++ "/incremental"
      let gs := ClickstreamDataGenerator.init prngAlgo fakerAlgo ambient data_size seed
      let bulk_start_date : Int := 0
      let be := gs.1.generate_bulk_data gs.2 bulk_start_date 30 ⟨0, 0, 0⟩
      let incremental_start_date : Int := 31 * 86400
      let fl := formatLoop gs.2 gs.1 stat bulk_dir incremental_dir size be.1
        incremental_start_date incremental_days formats [] be.2
      (.ok { size := size, bulk_record_count := be.1.length,
             incremental_days := incremental_days, files := fl.1 },
        Effect.mkdir bulk_dir :: Effect.mkdir incremental_dir :: fl.2.1)

/-- Blank out the three uuid-derived identifier fields of an event,
keeping every field that is derived from the seeded sources. -/
def Event.scrubIds (e : Event) : Event :=
  { e with event_id := "", user_id := "", session_id := "" }

/-- Blank out the uuid-derived identifier fields throughout an effect. -/
def Effect.scrubIds : Effect → Effect
  | .mkdir p => .mkdir p
  | .writeBulk p f rows => .writeBulk p f (rows.map Event.scrubIds)
  | .writeIncremental p f rows => .writeIncremental p f (rows.map Event.scrubIds)

/-- Whether an effect is a write performed at the bulk call site. -/
def Effect.isBulkWrite : Effect → Bool
  | .writeBulk _ _ _ => true
  | _ => false

/-- Whether an effect is a write performed at the incremental call site. -/
def Effect.isIncrementalWrite : Effect → Bool
  | .writeIncremental _ _ _ => true
  | _ => false

/-- The table of rows handed to the writer by an effect. -/
def Effect.rows : Effect → List Event
  | .mkdir _ => []
  | .writeBulk _ _ rows => rows
  | .writeIncremental _ _ rows => rows

/-- The row tables of all bulk-site writes in a run result, in order. -/
def bulkRowsWritten (out : Except GenError Manifest × List Effect) :
    List (List Event) :=
  (out.2.filter Effect.isBulkWrite).map Effect.rows

/-- The row tables of all incremental-site writes in a run result, in order. -/
def incrementalRowsWritten (out : Except GenError Manifest × List Effect) :
    List (List Event) :=
  (out.2.filter Effect.isIncrementalWrite).map Effect.rows

/-- The `event_id` of the first row of the first bulk file written. -/
def firstBulkEventId (out : Except GenError Manifest × List Effect) :
    Option String :=
  ((bulkRowsWritten out).head?.bind List.head?).map Event.event_id

/-- A concrete ambient-source triple: constant OS entropy `a`, identity
`random` and Faker streams. -/
def sampleStreams (a : String) : Streams :=
  ⟨fun _ => a, fun k => k, fun k => k⟩

/-- A concrete stand-in for the deterministic seeding algorithm of the
`random` module / Faker: stream `k ↦ s + k` for seed `s`. -/
def addAlgo : Nat → Nat → Nat := fun s k => s + k

/-- A concrete file-size oracle. -/
def statZero : String → Nat := fun _ => 0

/-! ## Helper lemmas about the generation loops -/

theorem randint_le (S : Streams) (lo hi : Nat) (pos : Pos) (h : lo ≤ hi) :
    lo ≤ (randint S lo hi pos).1 ∧ (randint S lo hi pos).1 ≤ hi := by
  have hm : S.prng pos.p % (hi + 1 - lo) < hi + 1 - lo :=
    Nat.mod_lt _ (by omega)
  simp only [randint]
  omega

theorem choice_mem (S : Streams) (l : List String) (pos : Pos) (h : l ≠ []) :
    (choice S l pos).1 ∈ l := by
  have hl : 0 < l.length := List.length_pos.mpr h
  have hm : S.prng pos.p % l.length < l.length := Nat.mod_lt _ hl
  simp only [choice]
  rw [List.getD_eq_getElem l "" hm]
  exact List.getElem_mem hm

theorem generate_event_timestamp (S : Streams) (ts : Int) (pos : Pos) :
    (generate_event S ts pos).1.timestamp = ts := rfl

theorem generate_event_categoricals (S : Streams) (ts : Int) (pos : Pos) :
    (generate_event S ts pos).1.page_url ∈ PAGES ∧
    (generate_event S ts pos).1.country ∈ COUNTRIES ∧
    (generate_event S ts pos).1.device ∈ DEVICES := by
  refine ⟨?_, ?_, ?_⟩ <;>
    · simp only [generate_event, uuid4, fakerIpv4]
      exact choice_mem _ _ _ (by simp [PAGES, COUNTRIES, DEVICES])

theorem generate_event_pos (S : Streams) (ts : Int) (pos : Pos) :
    (generate_event S ts pos).2 = ⟨pos.u + 3, pos.p + 3, pos.f + 1⟩ := rfl

theorem eventLoop_length (S : Streams) (b : Int) (sp : Nat) :
    ∀ (n : Nat) (pos : Pos), (eventLoop S b sp n pos).1.length = n
  | 0, _pos => rfl
  | n + 1, pos => by
    simp [eventLoop, eventLoop_length S b sp n]

theorem eventLoop_ne_nil (S : Streams) (b : Int) (sp n : Nat) (pos : Pos)
    (h : n ≠ 0) : (eventLoop S b sp n pos).1 ≠ [] := by
  intro hl
  have := eventLoop_length S b sp n pos
  rw [hl] at this
  exact h this.symm

theorem eventLoop_pos (S : Streams) (b : Int) (sp : Nat) :
    ∀ (n : Nat) (pos : Pos),
      (eventLoop S b sp n pos).2 = ⟨pos.u + 3 * n, pos.p + 4 * n, pos.f + n⟩
  | 0, pos => by simp [eventLoop]
  | n + 1, pos => by
    simp only [eventLoop, randint, generate_event, uuid4, choice, fakerIpv4,
      eventLoop_pos S b sp n]
    congr 1 <;> dsimp <;> omega

theorem eventLoop_mem (S : Streams) (b : Int) (sp : Nat) :
    ∀ (n : Nat) (pos : Pos), ∀ e ∈ (eventLoop S b sp n pos).1,
      e.page_url ∈ PAGES ∧ e.country ∈ COUNTRIES ∧ e.device ∈ DEVICES ∧
        b ≤ e.timestamp ∧ e.timestamp ≤ b + sp
  | 0, _pos => by simp [eventLoop]
  | n + 1, pos => by
    intro e he
    simp only [eventLoop, List.mem_cons] at he
    rcases he with he | he
    · subst he
      obtain ⟨hc1, hc2, hc3⟩ := generate_event_categoricals S
        (b + ((randint S 0 sp pos).1 : Int)) (randint S 0 sp pos).2
      refine ⟨hc1, hc2, hc3, ?_, ?_⟩ <;>
        · rw [generate_event_timestamp]
          have hr := (randint_le S 0 sp pos (Nat.zero_le sp)).2
          omega
    · exact eventLoop_mem S b sp n _ e he

theorem eventLoop_cons (S : Streams) (b : Int) (sp n : Nat) (pos : Pos)
    (h : n ≠ 0) :
    (eventLoop S b sp n pos).1 =
      (generate_event S (b + ((randint S 0 sp pos).1 : Int))
          (randint S 0 sp pos).2).1 ::
        (eventLoop S b sp (n - 1)
          (generate_event S (b + ((randint S 0 sp pos).1 : Int))
            (randint S 0 sp pos).2).2).1 := by
  obtain ⟨m, rfl⟩ := Nat.exists_eq_succ_of_ne_zero h
  simp [eventLoop]

theorem eventLoop_head (S : Streams) (b : Int) (sp n : Nat) (pos : Pos)
    (h : n ≠ 0) :
    (eventLoop S b sp n pos).1.head? =
      some (generate_event S (b + ((randint S 0 sp pos).1 : Int))
        (randint S 0 sp pos).2).1 := by
  rw [eventLoop_cons S b sp n pos h]
  rfl

theorem generate_event_event_id (S : Streams) (ts : Int) (pos : Pos) :
    (generate_event S ts pos).1.event_id = S.uuid pos.u := rfl

/-! ## Generator-level claims -/

/-- C2: for every size tier and every start date, `generate_bulk_data` on
a generator constructed for that tier returns a batch of exactly the
tier record count from the fixed mapping (small: 100000; medium:
10000000; large: 100000000}, and the batch is never empty. -/
theorem C2_bulk_batch_length (prngAlgo fakerAlgo : Nat → Nat → Nat)
    (ambient : Streams) (size : DataSize) (seed : Option Nat)
    (start_date : Int) (pos : Pos) :
    ((((ClickstreamDataGenerator.init prngAlgo fakerAlgo ambient size seed).1.generate_bulk_data
          (ClickstreamDataGenerator.init prngAlgo fakerAlgo ambient size seed).2
          start_date 30 pos).1.length = SIZE_RECORD_COUNTS size)
      ∧ ((ClickstreamDataGenerator.init prngAlgo fakerAlgo ambient size seed).1.generate_bulk_data
          (ClickstreamDataGenerator.init prngAlgo fakerAlgo ambient size seed).2
          start_date 30 pos).1 ≠ [])
    ∧ SIZE_RECORD_COUNTS .small = 100000
    ∧ SIZE_RECORD_COUNTS .medium = 10000000
    ∧ SIZE_RECORD_COUNTS .large = 100000000 := by
  refine ⟨⟨?_, ?_⟩, rfl, rfl, rfl⟩
  · exact eventLoop_length _ _ _ _ _
  · exact eventLoop_ne_nil _ _ _ _ _ (by cases size <;> simp [SIZE_RECORD_COUNTS,
      ClickstreamDataGenerator.init])

/-- C5: for every date and every `records_per_day` count (default 1000),
`generate_incremental_data` returns a batch of exactly `records_per_day`
events. -/
theorem C5_incremental_batch_length (g : ClickstreamDataGenerator)
    (S : Streams) (date : Int) (records_per_day : Nat) (pos : Pos) :
    (g.generate_incremental_data S date records_per_day pos).1.length =
      records_per_day :=
  eventLoop_length _ _ _ _ _

/-- C4: every event of a bulk batch over `start_date` with `days = 30`
has its timestamp in the closed interval
`[start_date, start_date + 30 days]`, and every event of an incremental
batch for day `D` has its timestamp in the closed interval
`[midnight(D), midnight(D) + 86400]` (both upper bounds inclusive, so a
timestamp exactly on the following midnight is permitted). -/
theorem C4_timestamp_windows (g : ClickstreamDataGenerator) (S : Streams)
    (start_date date : Int) (records_per_day : Nat) (pos pos2 : Pos) :
    (∀ e ∈ (g.generate_bulk_data S start_date 30 pos).1,
        start_date ≤ e.timestamp ∧ e.timestamp ≤ start_date + 30 * 86400)
    ∧ (∀ e ∈ (g.generate_incremental_data S date records_per_day pos2).1,
        date - date % 86400 ≤ e.timestamp ∧
          e.timestamp ≤ (date - date % 86400) + 86400) := by
  constructor
  · intro e he
    have h := eventLoop_mem S start_date (30 * 86400) g.record_count pos e he
    refine ⟨h.2.2.2.1, ?_⟩
    have := h.2.2.2.2
    omega
  · intro e he
    have h := eventLoop_mem S (date - date % 86400) 86400 records_per_day pos2 e he
    refine ⟨h.2.2.2.1, ?_⟩
    have := h.2.2.2.2
    omega

/-- Witness for C4 at a concrete generator, stream triple and start date:
the first bulk event exists and its timestamp obeys the bulk window
bounds. -/
theorem C4_timestamp_windows_witness :
    ∃ e, e ∈ ((ClickstreamDataGenerator.mk .small 100000).generate_bulk_data
        (sampleStreams "x") 0 30 ⟨0, 0, 0⟩).1 ∧
      (0 : Int) ≤ e.timestamp ∧ e.timestamp ≤ 0 + 30 * 86400 := by
  have hmem : (generate_event (sampleStreams "x")
      (0 + ((randint (sampleStreams "x") 0 (30 * 86400) ⟨0, 0, 0⟩).1 : Int))
      (randint (sampleStreams "x") 0 (30 * 86400) ⟨0, 0, 0⟩).2).1 ∈
      ((ClickstreamDataGenerator.mk .small 100000).generate_bulk_data
        (sampleStreams "x") 0 30 ⟨0, 0, 0⟩).1 := by
    show _ ∈ (eventLoop _ _ _ _ _).1
    rw [eventLoop_cons _ _ _ _ _ (by norm_num)]
    exact List.mem_cons_self _ _
  exact ⟨_, hmem,
    (C4_timestamp_windows (ClickstreamDataGenerator.mk .small 100000)
      (sampleStreams "x") 0 0 1000 ⟨0, 0, 0⟩ ⟨0, 0, 0⟩).1 _ hmem⟩

/-- C6: every generated event draws `page_url` from the fixed 9-element
page set, `country` from the fixed 9-element country set and `device`
from (desktop, mobile, tablet); the `Event` record (mirroring the dict
built by `_generate_event`) has all eight fields mandatory and each one
assigned on construction, so no null is ever produced. -/
theorem C6_categorical_fields (g : ClickstreamDataGenerator) (S : Streams)
    (start_date date : Int) (days records_per_day : Nat) (pos pos2 : Pos) :
    PAGES.length = 9 ∧ COUNTRIES.length = 9 ∧
      DEVICES = ["desktop", "mobile", "tablet"]
    ∧ (∀ e ∈ (g.generate_bulk_data S start_date days pos).1,
        e.page_url ∈ PAGES ∧ e.country ∈ COUNTRIES ∧ e.device ∈ DEVICES)
    ∧ (∀ e ∈ (g.generate_incremental_data S date records_per_day pos2).1,
        e.page_url ∈ PAGES ∧ e.country ∈ COUNTRIES ∧ e.device ∈ DEVICES) := by
  refine ⟨rfl, rfl, rfl, ?_, ?_⟩
  · intro e he
    have h := eventLoop_mem S start_date (days * 86400) g.record_count pos e he
    exact ⟨h.1, h.2.1, h.2.2.1⟩
  · intro e he
    have h := eventLoop_mem S (date - date % 86400) 86400 records_per_day pos2 e he
    exact ⟨h.1, h.2.1, h.2.2.1⟩

/-- Witness for C6 at a concrete generator and stream triple: the first
event of a concrete incremental batch exists and its categorical fields
are in the fixed sets. -/
theorem C6_categorical_fields_witness :
    ∃ e, e ∈ ((ClickstreamDataGenerator.mk .small 100000).generate_incremental_data
        (sampleStreams "y") 86400 1000 ⟨0, 0, 0⟩).1 ∧
      e.page_url ∈ PAGES ∧ e.country ∈ COUNTRIES ∧ e.device ∈ DEVICES := by
  have hmem : (generate_event (sampleStreams "y")
      ((86400 - (86400 : Int) % 86400) +
        ((randint (sampleStreams "y") 0 86400 ⟨0, 0, 0⟩).1 : Int))
      (randint (sampleStreams "y") 0 86400 ⟨0, 0, 0⟩).2).1 ∈
      ((ClickstreamDataGenerator.mk .small 100000).generate_incremental_data
        (sampleStreams "y") 86400 1000 ⟨0, 0, 0⟩).1 := by
    show _ ∈ (eventLoop _ _ _ _ _).1
    rw [eventLoop_cons _ _ _ _ _ (by norm_num)]
    exact List.mem_cons_self _ _
  exact ⟨_, hmem,
    (C6_categorical_fields (ClickstreamDataGenerator.mk .small 100000)
      (sampleStreams "y") 0 86400 30 1000 ⟨0, 0, 0⟩ ⟨0, 0, 0⟩).2.2.2.2 _ hmem⟩

/-! ## Helper lemmas about the orchestrator loops -/

theorem dayLoop_effects (S : Streams) (g : ClickstreamDataGenerator)
    (stat : String → Nat) (idir size fmt : String) (istart : Int) :
    ∀ (remaining day : Nat) (pos : Pos),
      ∀ eff ∈ (dayLoop S g stat idir size fmt istart day remaining pos).2.1,
        ∃ p r, eff = Effect.writeIncremental p fmt r ∧ r.length = 1000
  | 0, _day, _pos => by simp [dayLoop]
  | remaining + 1, day, pos => by
    intro eff heff
    simp only [dayLoop, List.mem_cons] at heff
    rcases heff with heff | heff
    · subst heff
      exact ⟨_, _, rfl, eventLoop_length _ _ _ _ _⟩
    · exact dayLoop_effects S g stat idir size fmt istart remaining (day + 1) _
        eff heff

theorem dayLoop_effects_length (S : Streams) (g : ClickstreamDataGenerator)
    (stat : String → Nat) (idir size fmt : String) (istart : Int) :
    ∀ (remaining day : Nat) (pos : Pos),
      (dayLoop S g stat idir size fmt istart day remaining pos).2.1.length =
        remaining
  | 0, _day, _pos => rfl
  | remaining + 1, day, pos => by
    simp [dayLoop, dayLoop_effects_length S g stat idir size fmt istart
      remaining (day + 1)]

theorem dayLoop_filter_bulk (S : Streams) (g : ClickstreamDataGenerator)
    (stat : String → Nat) (idir size fmt : String) (istart : Int)
    (remaining day : Nat) (pos : Pos) :
    (dayLoop S g stat idir size fmt istart day remaining pos).2.1.filter
      Effect.isBulkWrite = [] := by
  rw [List.filter_eq_nil_iff]
  intro eff heff
  obtain ⟨p, r, rfl, _⟩ :=
    dayLoop_effects S g stat idir size fmt istart remaining day pos eff heff
  simp [Effect.isBulkWrite]

theorem dayLoop_filter_incremental (S : Streams)
    (g : ClickstreamDataGenerator) (stat : String → Nat)
    (idir size fmt : String) (istart : Int) (remaining day : Nat)
    (pos : Pos) :
    (dayLoop S g stat idir size fmt istart day remaining pos).2.1.filter
      Effect.isIncrementalWrite =
      (dayLoop S g stat idir size fmt istart day remaining pos).2.1 := by
  rw [List.filter_eq_self]
  intro eff heff
  obtain ⟨p, r, rfl, _⟩ :=
    dayLoop_effects S g stat idir size fmt istart remaining day pos eff heff
  simp [Effect.isIncrementalWrite]

theorem formatLoop_bulk_rows (S : Streams) (g : ClickstreamDataGenerator)
    (stat : String → Nat) (bd idir size : String) (B : List Event)
    (istart : Int) (d : Int) :
    ∀ (fmts : List String) (files : List (String × FormatResults))
      (pos : Pos),
      ∀ eff ∈ (formatLoop S g stat bd idir size B istart d fmts files pos).2.1,
        eff.isBulkWrite = true → eff.rows = B
  | [], _files, _pos => by simp [formatLoop]
  | fmt :: rest, files, pos => by
    intro eff heff hb
    simp only [formatLoop, List.mem_cons, List.mem_append] at heff
    rcases heff with (heff | heff) | heff
    · subst heff; rfl
    · obtain ⟨p, r, rfl, _⟩ := dayLoop_effects S g stat idir size fmt istart
        d.toNat 0 pos eff heff
      simp [Effect.isBulkWrite] at hb
    · exact formatLoop_bulk_rows S g stat bd idir size B istart d rest _ _
        eff heff hb

theorem formatLoop_bulk_count (S : Streams) (g : ClickstreamDataGenerator)
    (stat : String → Nat) (bd idir size : String) (B : List Event)
    (istart : Int) (d : Int) :
    ∀ (fmts : List String) (files : List (String × FormatResults))
      (pos : Pos),
      ((formatLoop S g stat bd idir size B istart d fmts files pos).2.1.filter
        Effect.isBulkWrite).length = fmts.length
  | [], _files, _pos => rfl
  | fmt :: rest, files, pos => by
    have ih := formatLoop_bulk_count S g stat bd idir size B istart d rest
    simp [formatLoop, List.filter_cons, Effect.isBulkWrite, List.filter_append,
      dayLoop_filter_bulk, ih]

theorem formatLoop_incremental_count (S : Streams)
    (g : ClickstreamDataGenerator) (stat : String → Nat)
    (bd idir size : String) (B : List Event) (istart : Int) (d : Int) :
    ∀ (fmts : List String) (files : List (String × FormatResults))
      (pos : Pos),
      ((formatLoop S g stat bd idir size B istart d fmts files pos).2.1.filter
        Effect.isIncrementalWrite).length = fmts.length * d.toNat
  | [], _files, _pos => by simp [formatLoop]
  | fmt :: rest, files, pos => by
    have ih := formatLoop_incremental_count S g stat bd idir size B istart d rest
    simp [formatLoop, List.filter_cons, Effect.isIncrementalWrite,
      List.filter_append, dayLoop_filter_incremental, dayLoop_effects_length, ih]
    ring

theorem dictInsert_nil (k : String) (v : FormatResults) :
    dictInsert [] k v = [(k, v)] := rfl

theorem dictInsert_cons_self (k : String) (v0 v : FormatResults)
    (rest : List (String × FormatResults)) :
    dictInsert ((k, v0) :: rest) k v = (k, v) :: rest := by
  simp [dictInsert]

theorem DataSize.ofString_value (ds : DataSize) :
    DataSize.ofString ds.value = some ds := by
  cases ds <;> rfl

theorem generate_benchmark_data_valid (prngAlgo fakerAlgo : Nat → Nat → Nat)
    (ambient : Streams) (stat : String → Nat) (output_dir : String)
    (formatsArg : Option (List String)) (seed : Option Nat) (d : Int)
    (ds : DataSize)
    (hv : ((formatsArg.getD ["csv", "parquet"]).filter
        (fun f => !(["csv", "parquet"] : List String).contains f)).dedup = []) :
    generate_benchmark_data prngAlgo fakerAlgo ambient stat ds.value
        output_dir formatsArg seed d =
      (.ok { size := ds.value,
             bulk_record_count :=
               ((ClickstreamDataGenerator.init prngAlgo fakerAlgo ambient ds
                   seed).1.generate_bulk_data
                 (ClickstreamDataGenerator.init prngAlgo fakerAlgo ambient ds
                   seed).2 0 30 ⟨0, 0, 0⟩).1.length,
             incremental_days := d,
             files :=
               (formatLoop
                 (ClickstreamDataGenerator.init prngAlgo fakerAlgo ambient ds
                   seed).2
                 (ClickstreamDataGenerator.init prngAlgo fakerAlgo ambient ds
                   seed).1
                 stat (output_dir ++ "/bulk") (output_dir ++ "/incremental")
                 ds.value
                 ((ClickstreamDataGenerator.init prngAlgo fakerAlgo ambient ds
                     seed).1.generate_bulk_data
                   (ClickstreamDataGenerator.init prngAlgo fakerAlgo ambient ds
                     seed).2 0 30 ⟨0, 0, 0⟩).1
                 (31 * 86400) d (formatsArg.getD ["csv", "parquet"]) []
                 ((ClickstreamDataGenerator.init prngAlgo fakerAlgo ambient ds
                     seed).1.generate_bulk_data
                   (ClickstreamDataGenerator.init prngAlgo fakerAlgo ambient ds
                     seed).2 0 30 ⟨0, 0, 0⟩).2).1 },
        Effect.mkdir (output_dir ++ "/bulk") ::
          Effect.mkdir (output_dir ++ "/incremental") ::
            (formatLoop
              (ClickstreamDataGenerator.init prngAlgo fakerAlgo ambient ds
                seed).2
              (ClickstreamDataGenerator.init prngAlgo fakerAlgo ambient ds
                seed).1
              stat (output_dir ++ "/bulk") (output_dir ++ "/incremental")
              ds.value
              ((ClickstreamDataGenerator.init prngAlgo fakerAlgo ambient ds
                  seed).1.generate_bulk_data
                (ClickstreamDataGenerator.init prngAlgo fakerAlgo ambient ds
                  seed).2 0 30 ⟨0, 0, 0⟩).1
              (31 * 86400) d (formatsArg.getD ["csv", "parquet"]) []
              ((ClickstreamDataGenerator.init prngAlgo fakerAlgo ambient ds
                  seed).1.generate_bulk_data
                (ClickstreamDataGenerator.init prngAlgo fakerAlgo ambient ds
                  seed).2 0 30 ⟨0, 0, 0⟩).2).2.1) := by
  simp [generate_benchmark_data, DataSize.ofString_value, hv]
  intro x hx hcsv
  have h1 : (formatsArg.getD ["csv", "parquet"]).filter
      (fun f => !(["csv", "parquet"] : List String).contains f) = [] := by
    rwa [List.dedup_eq_nil] at hv
  have h2 := List.filter_eq_nil_iff.mp h1 x hx
  simp at h2
  tauto

theorem dictInsert_mem (files : List (String × FormatResults)) (k : String)
    (v : FormatResults) :
    ∀ kv ∈ dictInsert files k v, kv ∈ files ∨ kv = (k, v) := by
  induction files with
  | nil => simp [dictInsert]
  | cons hd tl ih =>
    intro kv hkv
    simp only [dictInsert] at hkv
    split at hkv
    · rcases List.mem_cons.mp hkv with h | h
      · exact Or.inr h
      · exact Or.inl (List.mem_cons_of_mem _ h)
    · rcases List.mem_cons.mp hkv with h | h
      · exact Or.inl (h ▸ List.mem_cons_self _ _)
      · rcases ih kv h with h2 | h2
        · exact Or.inl (List.mem_cons_of_mem _ h2)
        · exact Or.inr h2

theorem formatLoop_days_zero (S : Streams) (g : ClickstreamDataGenerator)
    (stat : String → Nat) (bd idir size : String) (B : List Event)
    (istart : Int) (d : Int) (hd : d.toNat = 0) :
    ∀ (fmts : List String) (files : List (String × FormatResults))
      (pos : Pos),
      (∀ kv ∈ files, kv.2.incremental = ([] : List IncrMeta)) →
      (∀ kv ∈ (formatLoop S g stat bd idir size B istart d fmts files pos).1,
          kv.2.incremental = ([] : List IncrMeta))
      ∧ ∀ eff ∈ (formatLoop S g stat bd idir size B istart d fmts files pos).2.1,
          eff.isIncrementalWrite = false
  | [], files, pos => by
    intro hf
    constructor
    · intro kv hkv; exact hf kv hkv
    · simp [formatLoop]
  | fmt :: rest, files, pos => by
    intro hf
    have hstep := formatLoop_days_zero S g stat bd idir size B istart d hd rest
      (dictInsert files fmt
        { bulk := { path := bd ++ "/" ++ ("bulk_data_" ++ size ++ "." ++ fmt),
                    records := B.length,
                    size_mb := sizeMb stat (bd ++ "/" ++ ("bulk_data_" ++ size ++ "." ++ fmt)) },
          incremental := (dayLoop S g stat idir size fmt istart 0 d.toNat pos).1 })
      (dayLoop S g stat idir size fmt istart 0 d.toNat pos).2.2
      (by
        intro kv hkv
        rcases dictInsert_mem files fmt _ kv hkv with h | h
        · exact hf kv h
        · subst h
          simp only []
          rw [hd]
          rfl)
    constructor
    · intro kv hkv
      exact hstep.1 kv hkv
    · intro eff heff
      simp only [formatLoop, List.mem_cons, List.mem_append] at heff
      rcases heff with (heff | heff) | heff
      · subst heff; rfl
      · rw [hd] at heff
        simp [dayLoop] at heff
      · exact hstep.2 eff heff

/-! ## Orchestrator-level claims -/

/-- C3: `generate_benchmark_data` validates `size` against the tier set
and every entry of `formats` against (csv, parquet) before any generation
or filesystem work: an unrecognized size fails with an error naming the
allowed tier values, unrecognized formats fail with an error naming the
offending formats and the supported set, and in either failure case the
effect trace is empty (no directory created, no file written). -/
theorem C3_fail_fast_validation (prngAlgo fakerAlgo : Nat → Nat → Nat)
    (ambient : Streams) (stat : String → Nat) (output_dir : String)
    (formatsArg : Option (List String)) (seed : Option Nat) (d : Int) :
    (∀ size, DataSize.ofString size = none →
        generate_benchmark_data prngAlgo fakerAlgo ambient stat size
            output_dir formatsArg seed d =
          (.error (.invalidSize ["small", "medium", "large"]), []))
    ∧ ∀ size ds, DataSize.ofString size = some ds →
        ∀ inv, inv = ((formatsArg.getD ["csv", "parquet"]).filter
            (fun f => !(["csv", "parquet"] : List String).contains f)).dedup →
          inv ≠ [] →
          generate_benchmark_data prngAlgo fakerAlgo ambient stat size
              output_dir formatsArg seed d =
            (.error (.unsupportedFormats inv ["csv", "parquet"]), []) := by
  constructor
  · intro size hs
    simp [generate_benchmark_data, hs, DataSize.all, DataSize.value]
  · intro size ds hs inv hinv hne
    subst hinv
    simp [generate_benchmark_data, hs, hne]
    have h1 : (formatsArg.getD ["csv", "parquet"]).filter
        (fun f => !(["csv", "parquet"] : List String).contains f) ≠ [] := by
      intro h
      exact hne (by rw [h]; rfl)
    obtain ⟨x, hx⟩ := List.exists_mem_of_ne_nil _ h1
    have hx2 := List.mem_filter.mp hx
    refine ⟨x, hx2.1, ?_⟩
    have := hx2.2
    simp at this
    tauto

/-- Witness for C3: `size="tiny"` fails naming the tier set and
`formats=["xml"]` fails naming the offender and the supported set, both
with an empty effect trace. -/
theorem C3_fail_fast_validation_witness :
    generate_benchmark_data addAlgo addAlgo (sampleStreams "x") statZero
        "tiny" "out" none none 7 =
      (.error (.invalidSize ["small", "medium", "large"]), [])
    ∧ generate_benchmark_data addAlgo addAlgo (sampleStreams "x") statZero
        "small" "out" (some ["xml"]) none 7 =
      (.error (.unsupportedFormats ["xml"] ["csv", "parquet"]), []) :=
  ⟨(C3_fail_fast_validation addAlgo addAlgo (sampleStreams "x") statZero
      "out" none none 7).1 "tiny" (by decide),
   (C3_fail_fast_validation addAlgo addAlgo (sampleStreams "x") statZero
      "out" (some ["xml"]) none 7).2 "small" .small (by decide) ["xml"]
      (by decide) (by decide)⟩

/-- C10: `incremental_days` is not validated: for any value `≤ 0` the call
succeeds, the trace contains no incremental write (only the two mkdirs
and one bulk write per format — two for the default format list), every
incremental list of every format in the manifest is empty, and the
`incremental_days` field echoes the argument as given. -/
theorem C10_no_incremental_days_validation
    (prngAlgo fakerAlgo : Nat → Nat → Nat) (ambient : Streams)
    (stat : String → Nat) (output_dir : String) (seed : Option Nat)
    (ds : DataSize) (d : Int) (hd : d ≤ 0) :
    (∃ m : Manifest,
        (generate_benchmark_data prngAlgo fakerAlgo ambient stat ds.value
            output_dir none seed d).1 = .ok m
        ∧ m.incremental_days = d
        ∧ ∀ kv ∈ m.files, kv.2.incremental = ([] : List IncrMeta))
    ∧ (∀ eff ∈ (generate_benchmark_data prngAlgo fakerAlgo ambient stat
          ds.value output_dir none seed d).2,
        eff.isIncrementalWrite = false)
    ∧ ((generate_benchmark_data prngAlgo fakerAlgo ambient stat ds.value
          output_dir none seed d).2.filter Effect.isBulkWrite).length = 2 := by
  have hd0 : d.toNat = 0 := Int.toNat_of_nonpos hd
  rw [generate_benchmark_data_valid prngAlgo fakerAlgo ambient stat output_dir
    none seed d ds (by decide)]
  have hz := formatLoop_days_zero
    (ClickstreamDataGenerator.init prngAlgo fakerAlgo ambient ds seed).2
    (ClickstreamDataGenerator.init prngAlgo fakerAlgo ambient ds seed).1
    stat (output_dir ++ "/bulk") (output_dir ++ "/incremental") ds.value
    ((ClickstreamDataGenerator.init prngAlgo fakerAlgo ambient ds
        seed).1.generate_bulk_data
      (ClickstreamDataGenerator.init prngAlgo fakerAlgo ambient ds seed).2
      0 30 ⟨0, 0, 0⟩).1
    (31 * 86400) d hd0 ((none : Option (List String)).getD ["csv", "parquet"])
    []
    ((ClickstreamDataGenerator.init prngAlgo fakerAlgo ambient ds
        seed).1.generate_bulk_data
      (ClickstreamDataGenerator.init prngAlgo fakerAlgo ambient ds seed).2
      0 30 ⟨0, 0, 0⟩).2
    (by intro kv hkv; simp at hkv)
  refine ⟨⟨_, rfl, rfl, ?_⟩, ?_, ?_⟩
  · intro kv hkv
    exact hz.1 kv hkv
  · intro eff heff
    rcases List.mem_cons.mp heff with rfl | heff
    · rfl
    rcases List.mem_cons.mp heff with rfl | heff
    · rfl
    exact hz.2 eff heff
  · rw [List.filter_cons, List.filter_cons]
    simp only [Effect.isBulkWrite]
    rw [if_neg (by simp), if_neg (by simp)]
    rw [formatLoop_bulk_count]
    rfl

/-- Witness for C10 at `incremental_days = -3` with concrete streams and
output directory. -/
theorem C10_no_incremental_days_validation_witness :
    ((-3 : Int) ≤ 0)
    ∧ ((∃ m : Manifest,
        (generate_benchmark_data addAlgo addAlgo (sampleStreams "x") statZero
            DataSize.small.value "out" none none (-3)).1 = .ok m
        ∧ m.incremental_days = -3
        ∧ ∀ kv ∈ m.files, kv.2.incremental = ([] : List IncrMeta))
      ∧ (∀ eff ∈ (generate_benchmark_data addAlgo addAlgo (sampleStreams "x")
            statZero DataSize.small.value "out" none none (-3)).2,
          eff.isIncrementalWrite = false)
      ∧ ((generate_benchmark_data addAlgo addAlgo (sampleStreams "x") statZero
            DataSize.small.value "out" none none (-3)).2.filter
          Effect.isBulkWrite).length = 2) :=
  ⟨by decide,
   C10_no_incremental_days_validation addAlgo addAlgo (sampleStreams "x")
     statZero "out" none .small (-3) (by decide)⟩

theorem strftimeYmd_feb1 : strftimeYmd 2678400 = "2024-02-01" := by decide

theorem strftimeYmd_feb2 : strftimeYmd 2764800 = "2024-02-02" := by decide

/-- C8: the end-to-end run with size small, formats [csv], any seed and
incremental_days 2 returns a manifest with `bulk_record_count = 100000`,
`incremental_days = 2` and a single "csv" entry recording the
path, record count and size in MB of each file, and the trace writes
`<output_dir>/bulk/bulk_data_small.csv` with 100000 data rows and the two
dated incremental files with 1000 data rows each (the CSV header row is
added by the external writer on top of these data rows). -/
theorem C8_end_to_end_small_csv (prngAlgo fakerAlgo : Nat → Nat → Nat)
    (ambient : Streams) (stat : String → Nat) (output_dir : String)
    (seed : Option Nat) :
    ((generate_benchmark_data prngAlgo fakerAlgo ambient stat "small"
        output_dir (some ["csv"]) seed 2).1 =
      .ok { size := "small", bulk_record_count := 100000,
            incremental_days := 2,
            files := [("csv",
              { bulk := { path := output_dir ++ "/bulk/bulk_data_small.csv",
                          records := 100000,
                          size_mb := sizeMb stat (output_dir ++ "/bulk/bulk_data_small.csv") },
                incremental :=
                  [{ date := "2024-02-01",
                     path := output_dir ++ "/incremental/incremental_2024-02-01_small.csv",
                     records := 1000,
                     size_mb := sizeMb stat (output_dir ++ "/incremental/incremental_2024-02-01_small.csv") },
                   { date := "2024-02-02",
                     path := output_dir ++ "/incremental/incremental_2024-02-02_small.csv",
                     records := 1000,
                     size_mb := sizeMb stat (output_dir ++ "/incremental/incremental_2024-02-02_small.csv") }] })] })
    ∧ ∃ B i1 i2 : List Event,
        (generate_benchmark_data prngAlgo fakerAlgo ambient stat "small"
            output_dir (some ["csv"]) seed 2).2 =
          [Effect.mkdir (output_dir ++ "/bulk"),
           Effect.mkdir (output_dir ++ "/incremental"),
           Effect.writeBulk (output_dir ++ "/bulk/bulk_data_small.csv") "csv" B,
           Effect.writeIncremental
             (output_dir ++ "/incremental/incremental_2024-02-01_small.csv") "csv" i1,
           Effect.writeIncremental
             (output_dir ++ "/incremental/incremental_2024-02-02_small.csv") "csv" i2]
        ∧ B.length = 100000 ∧ i1.length = 1000 ∧ i2.length = 1000 := by
  constructor
  · rw [show ("small" : String) = DataSize.small.value from rfl,
      generate_benchmark_data_valid prngAlgo fakerAlgo ambient stat output_dir
        (some ["csv"]) seed 2 .small (by decide)]
    simp only [formatLoop, dayLoop, ClickstreamDataGenerator.generate_bulk_data,
      ClickstreamDataGenerator.generate_incremental_data, eventLoop_length,
      dictInsert, DataSize.value, Option.getD]
    norm_num [strftimeYmd_feb1, strftimeYmd_feb2, String.append_assoc]
    simp only [ClickstreamDataGenerator.init, SIZE_RECORD_COUNTS]
    simp [String.append_assoc]
  · have key : (generate_benchmark_data prngAlgo fakerAlgo ambient stat "small"
        output_dir (some ["csv"]) seed 2).2 =
        [Effect.mkdir (output_dir ++ "/bulk"),
         Effect.mkdir (output_dir ++ "/incremental"),
         Effect.writeBulk (output_dir ++ "/bulk/bulk_data_small.csv") "csv"
           (eventLoop (ClickstreamDataGenerator.init prngAlgo fakerAlgo ambient
               DataSize.small seed).2 0 2592000 100000 ⟨0, 0, 0⟩).1,
         Effect.writeIncremental
           (output_dir ++ "/incremental/incremental_2024-02-01_small.csv") "csv"
           (eventLoop (ClickstreamDataGenerator.init prngAlgo fakerAlgo ambient
               DataSize.small seed).2 2678400 86400 1000
             ⟨300000, 400000, 100000⟩).1,
         Effect.writeIncremental
           (output_dir ++ "/incremental/incremental_2024-02-02_small.csv") "csv"
           (eventLoop (ClickstreamDataGenerator.init prngAlgo fakerAlgo ambient
               DataSize.small seed).2 2764800 86400 1000
             ⟨303000, 404000, 101000⟩).1] := by
      rw [show ("small" : String) = DataSize.small.value from rfl,
        generate_benchmark_data_valid prngAlgo fakerAlgo ambient stat output_dir
          (some ["csv"]) seed 2 .small (by decide)]
      simp only [formatLoop, dayLoop, ClickstreamDataGenerator.generate_bulk_data,
        ClickstreamDataGenerator.generate_incremental_data, eventLoop_length,
        eventLoop_pos, dictInsert, DataSize.value, Option.getD]
      norm_num [strftimeYmd_feb1, strftimeYmd_feb2, String.append_assoc]
      simp only [ClickstreamDataGenerator.init, SIZE_RECORD_COUNTS]
      simp [String.append_assoc]
    exact ⟨_, _, _, key, eventLoop_length _ _ _ _ _, eventLoop_length _ _ _ _ _,
      eventLoop_length _ _ _ _ _⟩

/-- C7: in one valid run exactly one bulk batch is drawn and every
bulk-site write carries that same batch; one fresh incremental batch is
drawn per format-day pair, so the trace has `len(formats) *
incremental_days` incremental writes; and in a concrete seeded run with
formats [csv, parquet] the two formats incremental files for the same day
hold different rows. -/
theorem C7_single_bulk_fresh_incremental (prngAlgo fakerAlgo : Nat → Nat → Nat)
    (ambient : Streams) (stat : String → Nat) (output_dir : String)
    (seed : Option Nat) (ds : DataSize) (formats : List String) (d : Int)
    (hv : ∀ f ∈ formats, f ∈ (["csv", "parquet"] : List String))
    (hd : 0 ≤ d) :
    (∃ B : List Event, B.length = SIZE_RECORD_COUNTS ds
      ∧ (∀ eff ∈ (generate_benchmark_data prngAlgo fakerAlgo ambient stat
            ds.value output_dir (some formats) seed d).2,
          eff.isBulkWrite = true → eff.rows = B)
      ∧ ((generate_benchmark_data prngAlgo fakerAlgo ambient stat ds.value
            output_dir (some formats) seed d).2.filter
          Effect.isBulkWrite).length = formats.length
      ∧ ((generate_benchmark_data prngAlgo fakerAlgo ambient stat ds.value
            output_dir (some formats) seed d).2.filter
          Effect.isIncrementalWrite).length = formats.length * d.toNat)
    ∧ ∃ r1 r2 : List Event,
        incrementalRowsWritten (generate_benchmark_data addAlgo addAlgo
          (sampleStreams "x") statZero "small" "out" (some ["csv", "parquet"])
          (some 0) 1) = [r1, r2]
        ∧ r1 ≠ r2 := by
  constructor
  · have hv2 : (((some formats).getD ["csv", "parquet"]).filter
        (fun f => !(["csv", "parquet"] : List String).contains f)).dedup = [] := by
      have hfil : formats.filter
          (fun f => !(["csv", "parquet"] : List String).contains f) = [] := by
        rw [List.filter_eq_nil_iff]
        intro a ha
        have h3 := hv a ha
        simp only [List.mem_cons, List.not_mem_nil, or_false] at h3
        rcases h3 with rfl | rfl <;> simp
      simp only [Option.getD, hfil, List.dedup_nil]
    rw [generate_benchmark_data_valid prngAlgo fakerAlgo ambient stat
      output_dir (some formats) seed d ds hv2]
    simp only [ClickstreamDataGenerator.generate_bulk_data]
    refine ⟨(eventLoop (ClickstreamDataGenerator.init prngAlgo fakerAlgo
        ambient ds seed).2 0 (30 * 86400)
        (ClickstreamDataGenerator.init prngAlgo fakerAlgo ambient ds
          seed).1.record_count ⟨0, 0, 0⟩).1, ?_, ?_, ?_, ?_⟩
    · rw [eventLoop_length]
      simp [ClickstreamDataGenerator.init]
    · intro eff heff hb
      rcases List.mem_cons.mp heff with rfl | heff
      · simp [Effect.isBulkWrite] at hb
      rcases List.mem_cons.mp heff with rfl | heff
      · simp [Effect.isBulkWrite] at hb
      · exact formatLoop_bulk_rows _ _ _ _ _ _ _ _ _ _ _ _ eff heff hb
    · rw [List.filter_cons, List.filter_cons]
      simp only [Effect.isBulkWrite]
      rw [if_neg (by simp), if_neg (by simp)]
      exact formatLoop_bulk_count _ _ _ _ _ _ _ _ _ _ _ _
    · rw [List.filter_cons, List.filter_cons]
      simp only [Effect.isIncrementalWrite]
      rw [if_neg (by simp), if_neg (by simp)]
      exact formatLoop_incremental_count _ _ _ _ _ _ _ _ _ _ _ _
  · have key7 : (generate_benchmark_data addAlgo addAlgo (sampleStreams "x")
        statZero "small" "out" (some ["csv", "parquet"]) (some 0) 1).2 =
        [Effect.mkdir "out/bulk",
         Effect.mkdir "out/incremental",
         Effect.writeBulk "out/bulk/bulk_data_small.csv" "csv"
           (eventLoop (ClickstreamDataGenerator.init addAlgo addAlgo
               (sampleStreams "x") DataSize.small (some 0)).2 0 2592000 100000
             ⟨0, 0, 0⟩).1,
         Effect.writeIncremental
           "out/incremental/incremental_2024-02-01_small.csv" "csv"
           (eventLoop (ClickstreamDataGenerator.init addAlgo addAlgo
               (sampleStreams "x") DataSize.small (some 0)).2 2678400 86400
             1000 ⟨300000, 400000, 100000⟩).1,
         Effect.writeBulk "out/bulk/bulk_data_small.parquet" "parquet"
           (eventLoop (ClickstreamDataGenerator.init addAlgo addAlgo
               (sampleStreams "x") DataSize.small (some 0)).2 0 2592000 100000
             ⟨0, 0, 0⟩).1,
         Effect.writeIncremental
           "out/incremental/incremental_2024-02-01_small.parquet" "parquet"
           (eventLoop (ClickstreamDataGenerator.init addAlgo addAlgo
               (sampleStreams "x") DataSize.small (some 0)).2 2678400 86400
             1000 ⟨303000, 404000, 101000⟩).1] := by
      rw [show ("small" : String) = DataSize.small.value from rfl,
        generate_benchmark_data_valid addAlgo addAlgo (sampleStreams "x")
          statZero "out" (some ["csv", "parquet"]) (some 0) 1 .small
          (by decide)]
      simp only [formatLoop, dayLoop, ClickstreamDataGenerator.generate_bulk_data,
        ClickstreamDataGenerator.generate_incremental_data, eventLoop_length,
        eventLoop_pos, dictInsert_nil, dictInsert_cons_self, DataSize.value,
      Option.getD]
      norm_num [strftimeYmd_feb1, String.append_assoc]
      simp only [ClickstreamDataGenerator.init, SIZE_RECORD_COUNTS]
      simp [String.append_assoc]
    have hne : (eventLoop (ClickstreamDataGenerator.init addAlgo addAlgo
          (sampleStreams "x") DataSize.small (some 0)).2 2678400 86400 1000
          ⟨300000, 400000, 100000⟩).1 ≠
        (eventLoop (ClickstreamDataGenerator.init addAlgo addAlgo
          (sampleStreams "x") DataSize.small (some 0)).2 2678400 86400 1000
          ⟨303000, 404000, 101000⟩).1 := by
      intro h
      have h2 := congrArg (fun l => l.head?.map Event.timestamp) h
      simp only [eventLoop_head _ _ _ _ _ (by norm_num : (1000 : Nat) ≠ 0),
        Option.map_some, generate_event_timestamp] at h2
      simp [randint, ClickstreamDataGenerator.init, sampleStreams, addAlgo,
        generate_event_timestamp] at h2
    refine ⟨_, _, ?_, hne⟩
    simp only [incrementalRowsWritten, key7]
    rfl

/-- Witness for C7 at a concrete run (small tier, formats [csv], two
incremental days). -/
theorem C7_single_bulk_fresh_incremental_witness :
    (∀ f ∈ (["csv"] : List String), f ∈ (["csv", "parquet"] : List String))
    ∧ ((0 : Int) ≤ (2 : Int))
    ∧ ((∃ B : List Event, B.length = SIZE_RECORD_COUNTS .small
        ∧ (∀ eff ∈ (generate_benchmark_data addAlgo addAlgo (sampleStreams "w")
              statZero DataSize.small.value "outw" (some ["csv"]) none 2).2,
            eff.isBulkWrite = true → eff.rows = B)
        ∧ ((generate_benchmark_data addAlgo addAlgo (sampleStreams "w")
              statZero DataSize.small.value "outw" (some ["csv"]) none 2).2.filter
            Effect.isBulkWrite).length = (["csv"] : List String).length
        ∧ ((generate_benchmark_data addAlgo addAlgo (sampleStreams "w")
              statZero DataSize.small.value "outw" (some ["csv"]) none 2).2.filter
            Effect.isIncrementalWrite).length =
          (["csv"] : List String).length * (2 : Int).toNat)
      ∧ ∃ r1 r2 : List Event,
          incrementalRowsWritten (generate_benchmark_data addAlgo addAlgo
            (sampleStreams "x") statZero "small" "out" (some ["csv", "parquet"])
            (some 0) 1) = [r1, r2]
          ∧ r1 ≠ r2) :=
  ⟨by decide, by decide,
   C7_single_bulk_fresh_incremental addAlgo addAlgo (sampleStreams "w")
     statZero "outw" none .small ["csv"] 2 (by decide) (by decide)⟩

set_option maxRecDepth 2000 in
/-- C9: with duplicate formats `["csv", "csv"]` validation passes (only
the set of formats is checked); the bulk and the day-0 incremental file
are each written twice — once per occurrence, to the same paths, the
second occurrence overwriting the first — and the `files`
mapping of the manifest holds a single "csv" entry (Python dict assignment replaces the
value in place, so it is the metadata of the last occurrence); each occurrence
draws fresh incremental rows, which differ in a concrete seeded run. -/
theorem C9_duplicate_formats (prngAlgo fakerAlgo : Nat → Nat → Nat)
    (ambient : Streams) (stat : String → Nat) (output_dir : String)
    (seed : Option Nat) :
    ((generate_benchmark_data prngAlgo fakerAlgo ambient stat "small"
        output_dir (some ["csv", "csv"]) seed 1).1 =
      .ok { size := "small", bulk_record_count := 100000,
            incremental_days := 1,
            files := [("csv",
              { bulk := { path := output_dir ++ "/bulk/bulk_data_small.csv",
                          records := 100000,
                          size_mb := sizeMb stat (output_dir ++ "/bulk/bulk_data_small.csv") },
                incremental :=
                  [{ date := "2024-02-01",
                     path := output_dir ++ "/incremental/incremental_2024-02-01_small.csv",
                     records := 1000,
                     size_mb := sizeMb stat (output_dir ++ "/incremental/incremental_2024-02-01_small.csv") }] })] })
    ∧ (∃ B i1 i2 : List Event,
        (generate_benchmark_data prngAlgo fakerAlgo ambient stat "small"
            output_dir (some ["csv", "csv"]) seed 1).2 =
          [Effect.mkdir (output_dir ++ "/bulk"),
           Effect.mkdir (output_dir ++ "/incremental"),
           Effect.writeBulk (output_dir ++ "/bulk/bulk_data_small.csv") "csv" B,
           Effect.writeIncremental
             (output_dir ++ "/incremental/incremental_2024-02-01_small.csv") "csv" i1,
           Effect.writeBulk (output_dir ++ "/bulk/bulk_data_small.csv") "csv" B,
           Effect.writeIncremental
             (output_dir ++ "/incremental/incremental_2024-02-01_small.csv") "csv" i2]
        ∧ B.length = 100000 ∧ i1.length = 1000 ∧ i2.length = 1000)
    ∧ ∃ r1 r2 : List Event,
        incrementalRowsWritten (generate_benchmark_data addAlgo addAlgo
          (sampleStreams "z") statZero "small" "out" (some ["csv", "csv"])
          (some 0) 1) = [r1, r2] ∧ r1 ≠ r2 := by
  refine ⟨?_, ?_, ?_⟩
  · rw [show ("small" : String) = DataSize.small.value from rfl,
      generate_benchmark_data_valid prngAlgo fakerAlgo ambient stat output_dir
        (some ["csv", "csv"]) seed 1 .small (by decide)]
    simp only [formatLoop, dayLoop, ClickstreamDataGenerator.generate_bulk_data,
      ClickstreamDataGenerator.generate_incremental_data, eventLoop_length,
      dictInsert_nil, dictInsert_cons_self, DataSize.value, Option.getD]
    norm_num [strftimeYmd_feb1, String.append_assoc]
    simp only [ClickstreamDataGenerator.init, SIZE_RECORD_COUNTS]
    simp [String.append_assoc]
  · have key : (generate_benchmark_data prngAlgo fakerAlgo ambient stat "small"
        output_dir (some ["csv", "csv"]) seed 1).2 =
        [Effect.mkdir (output_dir ++ "/bulk"),
         Effect.mkdir (output_dir ++ "/incremental"),
         Effect.writeBulk (output_dir ++ "/bulk/bulk_data_small.csv") "csv"
           (eventLoop (ClickstreamDataGenerator.init prngAlgo fakerAlgo ambient
               DataSize.small seed).2 0 2592000 100000 ⟨0, 0, 0⟩).1,
         Effect.writeIncremental
           (output_dir ++ "/incremental/incremental_2024-02-01_small.csv") "csv"
           (eventLoop (ClickstreamDataGenerator.init prngAlgo fakerAlgo ambient
               DataSize.small seed).2 2678400 86400 1000
             ⟨300000, 400000, 100000⟩).1,
         Effect.writeBulk (output_dir ++ "/bulk/bulk_data_small.csv") "csv"
           (eventLoop (ClickstreamDataGenerator.init prngAlgo fakerAlgo ambient
               DataSize.small seed).2 0 2592000 100000 ⟨0, 0, 0⟩).1,
         Effect.writeIncremental
           (output_dir ++ "/incremental/incremental_2024-02-01_small.csv") "csv"
           (eventLoop (ClickstreamDataGenerator.init prngAlgo fakerAlgo ambient
               DataSize.small seed).2 2678400 86400 1000
             ⟨303000, 404000, 101000⟩).1] := by
      rw [show ("small" : String) = DataSize.small.value from rfl,
        generate_benchmark_data_valid prngAlgo fakerAlgo ambient stat output_dir
          (some ["csv", "csv"]) seed 1 .small (by decide)]
      simp only [formatLoop, dayLoop, ClickstreamDataGenerator.generate_bulk_data,
        ClickstreamDataGenerator.generate_incremental_data, eventLoop_length,
        eventLoop_pos, dictInsert_nil, dictInsert_cons_self, DataSize.value,
      Option.getD]
      norm_num [strftimeYmd_feb1, String.append_assoc]
      simp only [ClickstreamDataGenerator.init, SIZE_RECORD_COUNTS]
      simp [String.append_assoc]
    exact ⟨_, _, _, key, eventLoop_length _ _ _ _ _, eventLoop_length _ _ _ _ _,
      eventLoop_length _ _ _ _ _⟩
  · have key2 : (generate_benchmark_data addAlgo addAlgo (sampleStreams "z")
        statZero "small" "out" (some ["csv", "csv"]) (some 0) 1).2 =
        [Effect.mkdir "out/bulk",
         Effect.mkdir "out/incremental",
         Effect.writeBulk "out/bulk/bulk_data_small.csv" "csv"
           (eventLoop (ClickstreamDataGenerator.init addAlgo addAlgo
               (sampleStreams "z") DataSize.small (some 0)).2 0 2592000 100000
             ⟨0, 0, 0⟩).1,
         Effect.writeIncremental
           "out/incremental/incremental_2024-02-01_small.csv" "csv"
           (eventLoop (ClickstreamDataGenerator.init addAlgo addAlgo
               (sampleStreams "z") DataSize.small (some 0)).2 2678400 86400
             1000 ⟨300000, 400000, 100000⟩).1,
         Effect.writeBulk "out/bulk/bulk_data_small.csv" "csv"
           (eventLoop (ClickstreamDataGenerator.init addAlgo addAlgo
               (sampleStreams "z") DataSize.small (some 0)).2 0 2592000 100000
             ⟨0, 0, 0⟩).1,
         Effect.writeIncremental
           "out/incremental/incremental_2024-02-01_small.csv" "csv"
           (eventLoop (ClickstreamDataGenerator.init addAlgo addAlgo
               (sampleStreams "z") DataSize.small (some 0)).2 2678400 86400
             1000 ⟨303000, 404000, 101000⟩).1] := by
      rw [show ("small" : String) = DataSize.small.value from rfl,
        generate_benchmark_data_valid addAlgo addAlgo (sampleStreams "z")
          statZero "out" (some ["csv", "csv"]) (some 0) 1 .small (by decide)]
      simp only [formatLoop, dayLoop, ClickstreamDataGenerator.generate_bulk_data,
        ClickstreamDataGenerator.generate_incremental_data, eventLoop_length,
        eventLoop_pos, dictInsert_nil, dictInsert_cons_self, DataSize.value,
      Option.getD]
      norm_num [strftimeYmd_feb1, String.append_assoc]
      simp only [ClickstreamDataGenerator.init, SIZE_RECORD_COUNTS]
      simp [String.append_assoc]
    have hne : (eventLoop (ClickstreamDataGenerator.init addAlgo addAlgo
          (sampleStreams "z") DataSize.small (some 0)).2 2678400 86400 1000
          ⟨300000, 400000, 100000⟩).1 ≠
        (eventLoop (ClickstreamDataGenerator.init addAlgo addAlgo
          (sampleStreams "z") DataSize.small (some 0)).2 2678400 86400 1000
          ⟨303000, 404000, 101000⟩).1 := by
      intro h
      have h2 := congrArg (fun l => l.head?.map Event.timestamp) h
      simp only [eventLoop_head _ _ _ _ _ (by norm_num : (1000 : Nat) ≠ 0),
        Option.map_some, generate_event_timestamp] at h2
      simp [randint, ClickstreamDataGenerator.init, sampleStreams, addAlgo,
        generate_event_timestamp] at h2
    refine ⟨_, _, ?_, hne⟩
    simp only [incrementalRowsWritten, key2]
    rfl

/-! ## Seeding and reproducibility (C1) -/

theorem generate_event_scrub (S1 S2 : Streams) (hp : S1.prng = S2.prng)
    (hf : S1.faker = S2.faker) (ts : Int) (pos : Pos) :
    (generate_event S1 ts pos).1.scrubIds = (generate_event S2 ts pos).1.scrubIds
    ∧ (generate_event S1 ts pos).2 = (generate_event S2 ts pos).2 := by
  constructor <;>
    simp [generate_event, uuid4, choice, fakerIpv4, Event.scrubIds, hp, hf]

theorem eventLoop_scrub (S1 S2 : Streams) (hp : S1.prng = S2.prng)
    (hf : S1.faker = S2.faker) (b : Int) (sp : Nat) :
    ∀ (n : Nat) (pos : Pos),
      (eventLoop S1 b sp n pos).1.map Event.scrubIds =
        (eventLoop S2 b sp n pos).1.map Event.scrubIds
      ∧ (eventLoop S1 b sp n pos).2 = (eventLoop S2 b sp n pos).2
  | 0, _pos => ⟨rfl, rfl⟩
  | n + 1, pos => by
    have hr : randint S1 0 sp pos = randint S2 0 sp pos := by
      simp [randint, hp]
    have he := generate_event_scrub S1 S2 hp hf
      (b + ((randint S2 0 sp pos).1 : Int)) (randint S2 0 sp pos).2
    have ih := eventLoop_scrub S1 S2 hp hf b sp n
      (generate_event S2 (b + ((randint S2 0 sp pos).1 : Int))
        (randint S2 0 sp pos).2).2
    constructor
    · simp only [eventLoop, hr, List.map_cons, he.2, he.1, ih.1]
    · simp only [eventLoop, hr, he.2, ih.2]

theorem eventLoop_scrub_length (S1 S2 : Streams) (hp : S1.prng = S2.prng)
    (hf : S1.faker = S2.faker) (b : Int) (sp n : Nat) (pos : Pos) :
    (eventLoop S1 b sp n pos).1.length = (eventLoop S2 b sp n pos).1.length := by
  rw [eventLoop_length, eventLoop_length]

theorem dayLoop_scrub (S1 S2 : Streams) (hp : S1.prng = S2.prng)
    (hf : S1.faker = S2.faker) (g : ClickstreamDataGenerator)
    (stat : String → Nat) (idir size fmt : String) (istart : Int) :
    ∀ (remaining day : Nat) (pos : Pos),
      (dayLoop S1 g stat idir size fmt istart day remaining pos).1 =
        (dayLoop S2 g stat idir size fmt istart day remaining pos).1
      ∧ (dayLoop S1 g stat idir size fmt istart day remaining pos).2.1.map
          Effect.scrubIds =
        (dayLoop S2 g stat idir size fmt istart day remaining pos).2.1.map
          Effect.scrubIds
      ∧ (dayLoop S1 g stat idir size fmt istart day remaining pos).2.2 =
        (dayLoop S2 g stat idir size fmt istart day remaining pos).2.2
  | 0, _day, _pos => ⟨rfl, rfl, rfl⟩
  | remaining + 1, day, pos => by
    have hev := eventLoop_scrub S1 S2 hp hf
      ((istart + (day : Int) * 86400) -
        (istart + (day : Int) * 86400) % 86400) 86400 1000 pos
    have hlen : (eventLoop S1 ((istart + (day : Int) * 86400) -
        (istart + (day : Int) * 86400) % 86400) 86400 1000 pos).1.length =
        (eventLoop S2 ((istart + (day : Int) * 86400) -
          (istart + (day : Int) * 86400) % 86400) 86400 1000 pos).1.length :=
      eventLoop_scrub_length S1 S2 hp hf _ _ _ _
    have ih := dayLoop_scrub S1 S2 hp hf g stat idir size fmt istart
      remaining (day + 1)
      (eventLoop S2 ((istart + (day : Int) * 86400) -
        (istart + (day : Int) * 86400) % 86400) 86400 1000 pos).2
    refine ⟨?_, ?_, ?_⟩
    · simp only [dayLoop, ClickstreamDataGenerator.generate_incremental_data,
        hlen, hev.2, ih.1]
    · simp only [dayLoop, ClickstreamDataGenerator.generate_incremental_data,
        List.map_cons, Effect.scrubIds, hev.1, hev.2, ih.2.1]
    · simp only [dayLoop, ClickstreamDataGenerator.generate_incremental_data,
        hev.2, ih.2.2]

theorem formatLoop_scrub (S1 S2 : Streams) (hp : S1.prng = S2.prng)
    (hf : S1.faker = S2.faker) (g : ClickstreamDataGenerator)
    (stat : String → Nat) (bd idir size : String) (B1 B2 : List Event)
    (hB : B1.map Event.scrubIds = B2.map Event.scrubIds) (istart d : Int) :
    ∀ (fmts : List String) (files : List (String × FormatResults))
      (pos : Pos),
      (formatLoop S1 g stat bd idir size B1 istart d fmts files pos).1 =
        (formatLoop S2 g stat bd idir size B2 istart d fmts files pos).1
      ∧ (formatLoop S1 g stat bd idir size B1 istart d fmts files pos).2.1.map
          Effect.scrubIds =
        (formatLoop S2 g stat bd idir size B2 istart d fmts files pos).2.1.map
          Effect.scrubIds
      ∧ (formatLoop S1 g stat bd idir size B1 istart d fmts files pos).2.2 =
        (formatLoop S2 g stat bd idir size B2 istart d fmts files pos).2.2
  | [], _files, _pos => ⟨rfl, rfl, rfl⟩
  | fmt :: rest, files, pos => by
    have hBlen : B1.length = B2.length := by
      have h2 := congrArg List.length hB
      simpa using h2
    have hdl := dayLoop_scrub S1 S2 hp hf g stat idir size fmt istart
      d.toNat 0 pos
    have ih := formatLoop_scrub S1 S2 hp hf g stat bd idir size B1 B2 hB
      istart d rest
      (dictInsert files fmt
        { bulk := { path := bd ++ "/" ++ ("bulk_data_" ++ size ++ "." ++ fmt),
                    records := B2.length,
                    size_mb := sizeMb stat
                      (bd ++ "/" ++ ("bulk_data_" ++ size ++ "." ++ fmt)) },
          incremental :=
            (dayLoop S2 g stat idir size fmt istart 0 d.toNat pos).1 })
      (dayLoop S2 g stat idir size fmt istart 0 d.toNat pos).2.2
    refine ⟨?_, ?_, ?_⟩
    · simp only [formatLoop, hBlen, hdl.1, hdl.2.2, ih.1]
    · simp only [formatLoop, List.map_cons, List.map_append, Effect.scrubIds,
        hB, hBlen, hdl.1, hdl.2.1, hdl.2.2, ih.2.1]
    · simp only [formatLoop, hBlen, hdl.1, hdl.2.2, ih.2.2]

/-- C1 (amended): if a seed is supplied, only the `random` module and the
Faker source are re-seeded from it; the unique-identifier source
(`uuid.uuid4`, OS entropy) is not. Hence two runs of
`generate_benchmark_data` with identical arguments (same seed, size,
formats, incremental_days) but independent OS entropy return identical
manifests and traces that agree on every written path and on every
timestamp, page_url, country, device and ip_address of every event — all fields
except the uuid-derived event_id / user_id / session_id. -/
theorem C1_seeded_reproducibility_amended (prngAlgo fakerAlgo : Nat → Nat → Nat)
    (amb1 amb2 : Streams) (stat : String → Nat) (size output_dir : String)
    (formatsArg : Option (List String)) (s : Nat) (d : Int) :
    (generate_benchmark_data prngAlgo fakerAlgo amb1 stat size output_dir
        formatsArg (some s) d).1 =
      (generate_benchmark_data prngAlgo fakerAlgo amb2 stat size output_dir
        formatsArg (some s) d).1
    ∧ (generate_benchmark_data prngAlgo fakerAlgo amb1 stat size output_dir
        formatsArg (some s) d).2.map Effect.scrubIds =
      (generate_benchmark_data prngAlgo fakerAlgo amb2 stat size output_dir
        formatsArg (some s) d).2.map Effect.scrubIds := by
  rcases hds : DataSize.ofString size with _ | ds
  · simp [generate_benchmark_data, hds]
  by_cases hinv : (((formatsArg.getD ["csv", "parquet"]).filter
      (fun f => !(["csv", "parquet"] : List String).contains f)).dedup ≠ [])
  · simp only [generate_benchmark_data, hds, if_pos hinv]
    exact ⟨trivial, trivial⟩
  · simp only [generate_benchmark_data, hds, if_neg hinv,
      ClickstreamDataGenerator.generate_bulk_data]
    have hg : (ClickstreamDataGenerator.init prngAlgo fakerAlgo amb1 ds
        (some s)).1 =
        (ClickstreamDataGenerator.init prngAlgo fakerAlgo amb2 ds (some s)).1 :=
      rfl
    have hp : (ClickstreamDataGenerator.init prngAlgo fakerAlgo amb1 ds
        (some s)).2.prng =
        (ClickstreamDataGenerator.init prngAlgo fakerAlgo amb2 ds
          (some s)).2.prng := rfl
    have hf2 : (ClickstreamDataGenerator.init prngAlgo fakerAlgo amb1 ds
        (some s)).2.faker =
        (ClickstreamDataGenerator.init prngAlgo fakerAlgo amb2 ds
          (some s)).2.faker := rfl
    simp only [hg]
    have hev := eventLoop_scrub
      (ClickstreamDataGenerator.init prngAlgo fakerAlgo amb1 ds (some s)).2
      (ClickstreamDataGenerator.init prngAlgo fakerAlgo amb2 ds (some s)).2
      hp hf2 0 (30 * 86400)
      (ClickstreamDataGenerator.init prngAlgo fakerAlgo amb2 ds
        (some s)).1.record_count ⟨0, 0, 0⟩
    have hlen := eventLoop_scrub_length
      (ClickstreamDataGenerator.init prngAlgo fakerAlgo amb1 ds (some s)).2
      (ClickstreamDataGenerator.init prngAlgo fakerAlgo amb2 ds (some s)).2
      hp hf2 0 (30 * 86400)
      (ClickstreamDataGenerator.init prngAlgo fakerAlgo amb2 ds
        (some s)).1.record_count ⟨0, 0, 0⟩
    have hfl := formatLoop_scrub
      (ClickstreamDataGenerator.init prngAlgo fakerAlgo amb1 ds (some s)).2
      (ClickstreamDataGenerator.init prngAlgo fakerAlgo amb2 ds (some s)).2
      hp hf2
      (ClickstreamDataGenerator.init prngAlgo fakerAlgo amb2 ds (some s)).1
      stat (output_dir ++ "/bulk") (output_dir ++ "/incremental") size
      (eventLoop (ClickstreamDataGenerator.init prngAlgo fakerAlgo amb1 ds
          (some s)).2 0 (30 * 86400)
        (ClickstreamDataGenerator.init prngAlgo fakerAlgo amb2 ds
          (some s)).1.record_count ⟨0, 0, 0⟩).1
      (eventLoop (ClickstreamDataGenerator.init prngAlgo fakerAlgo amb2 ds
          (some s)).2 0 (30 * 86400)
        (ClickstreamDataGenerator.init prngAlgo fakerAlgo amb2 ds
          (some s)).1.record_count ⟨0, 0, 0⟩).1
      hev.1 (31 * 86400) d (formatsArg.getD ["csv", "parquet"]) []
      (eventLoop (ClickstreamDataGenerator.init prngAlgo fakerAlgo amb2 ds
          (some s)).2 0 (30 * 86400)
        (ClickstreamDataGenerator.init prngAlgo fakerAlgo amb2 ds
          (some s)).1.record_count ⟨0, 0, 0⟩).2
    constructor
    · simp only [hlen, hev.2, hfl.1]
    · simp only [List.map_cons, Effect.scrubIds, hev.2, hfl.2.1]

/-- C1 as stated is false: with the same seed and identical arguments,
two runs whose OS entropy (the source behind `uuid.uuid4`) differs
produce different output — the `event_id` of the first bulk event is "a" in
one run and "b" in the other, so output is not byte-identical and
event_id / user_id / session_id are not reproduced. -/
theorem C1_byte_identical_counterexample :
    ¬ (generate_benchmark_data addAlgo addAlgo (sampleStreams "a") statZero
        "small" "out" (some ["csv"]) (some 42) 0 =
      generate_benchmark_data addAlgo addAlgo (sampleStreams "b") statZero
        "small" "out" (some ["csv"]) (some 42) 0) := by
  have kt : ∀ a : String, (generate_benchmark_data addAlgo addAlgo
      (sampleStreams a) statZero "small" "out" (some ["csv"]) (some 42) 0).2 =
      [Effect.mkdir "out/bulk", Effect.mkdir "out/incremental",
       Effect.writeBulk "out/bulk/bulk_data_small.csv" "csv"
         (eventLoop (ClickstreamDataGenerator.init addAlgo addAlgo
             (sampleStreams a) DataSize.small (some 42)).2 0 2592000 100000
           ⟨0, 0, 0⟩).1] := by
    intro a
    rw [show ("small" : String) = DataSize.small.value from rfl,
      generate_benchmark_data_valid addAlgo addAlgo (sampleStreams a)
        statZero "out" (some ["csv"]) (some 42) 0 .small (by decide)]
    simp only [formatLoop, dayLoop, ClickstreamDataGenerator.generate_bulk_data,
      eventLoop_length, eventLoop_pos, dictInsert_nil, DataSize.value,
      Option.getD]
    norm_num [String.append_assoc]
    simp only [ClickstreamDataGenerator.init, SIZE_RECORD_COUNTS]
    simp [String.append_assoc]
  intro h
  have h2 := congrArg Prod.snd h
  rw [kt "a", kt "b"] at h2
  simp only [List.cons.injEq, Effect.writeBulk.injEq, and_true, true_and] at h2
  have h4 := congrArg List.head? h2
  rw [eventLoop_head _ _ _ _ _ (show (100000 : Nat) ≠ 0 by norm_num),
    eventLoop_head _ _ _ _ _ (show (100000 : Nat) ≠ 0 by norm_num)] at h4
  simp only [Option.some.injEq] at h4
  have h5 := congrArg Event.event_id h4
  simp only [generate_event_event_id] at h5
  have ha : ((ClickstreamDataGenerator.init addAlgo addAlgo (sampleStreams "a")
      DataSize.small (some 42)).2).uuid = fun _ => "a" := rfl
  have hb : ((ClickstreamDataGenerator.init addAlgo addAlgo (sampleStreams "b")
      DataSize.small (some 42)).2).uuid = fun _ => "b" := rfl
  rw [ha, hb] at h5
  exact absurd h5 (by decide)
